import Mathlib

/-!
Verification development for the Kairos check-in subsystem.

Shallow embedding of the check-in scheduling and lifecycle core:
  - src/check_in_manager.py   (CheckInManager)
  - src/check_in_scheduler.py (CheckInScheduler)
  - src/activity_analyzer.py  (ActivityAnalyzer)

Modelling conventions:
  - Timestamps are integers counting minutes (the code works at minute
    granularity: retry run dates are truncated to the minute, and all
    thresholds are whole minutes).  `datetime.now().date()` combined with a
    time of day is modelled by passing the midnight instant `dayStart`
    alongside `now`.
  - The SQLite tables `check_ins`, `activity_logs` and the single-row
    `user_config` are lists and a record inside a `DB` structure; SQL
    `UPDATE ... WHERE` statements become `List.map` with a conditional
    update, `SELECT ... WHERE` becomes `List.filter`, and `INSERT` appends.
    `NULL` columns are `Option`.
  - The in-memory field `CheckInManager.pending_check_in_id` lives in
    `SysState` next to the database.
  - The Telegram transport and the Gemini classifier are external
    collaborators; they are modelled as parameters (`transport_ok`,
    `classify`, `parse`).  An exception propagating out of a function is an
    `Except.error`; exceptions that the code catches and swallows are
    modelled by returning the state mutated so far.
  - Display rounding of the hours-slept float (`round(h, 1)`) is not
    modelled; the quantity is kept as an exact rational.
-/

/-- The `status` column of `check_ins`
    (strings 'pending', 'sent', 'completed', 'missed', 'sleeping'). -/
inductive CStatus where
  | pending
  | sent
  | completed
  | missed
  | sleeping
deriving DecidableEq

/-- One row of the `check_ins` table. -/
structure CheckInRecord where
  id : Nat
  scheduled_time : Int
  sent_time : Option Int
  response_time : Option Int
  status : CStatus
deriving DecidableEq

/-- One row of the `activity_logs` table. -/
structure ActivityLogEntry where
  timestamp : Int
  user_response : Option String
  activity_summary : Option String
  productivity_type : Option String
  alignment_score : Option Int
  matched_todo_id : Option Nat
  category : Option String
  reasoning : Option String
  check_in_id : Option Nat
deriving DecidableEq

/-- The single row of the `user_config` table. -/
structure UserConfig where
  chat_id : Int
  check_ins_enabled : Bool
  is_sleeping : Bool
  sleep_start_time : Option Int
  default_wake_time : Option String
  last_wake_time : Option Int
deriving DecidableEq

/-- The persistent store. `next_id` models SQLite `lastrowid` generation. -/
structure DB where
  check_ins : List CheckInRecord
  activity_logs : List ActivityLogEntry
  user_config : UserConfig
  next_id : Nat
deriving DecidableEq

/-- Durable store plus the manager's in-memory `pending_check_in_id`. -/
structure SysState where
  db : DB
  pending_check_in_id : Option Nat
deriving DecidableEq

/-- `CheckInManager.send_check_in`: inserts the record with
    `status='sent'`, `scheduled_time = sent_time = now`, commits, stores the
    new id as pending, and only then calls the transport
    (`bot.send_message`).  A transport failure is re-raised to the caller,
    but the committed record and the pending pointer survive. -/
def send_check_in (transport_ok : Bool) (now : Int) (s : SysState) :
    Except String Nat × SysState :=
  let cid := s.db.next_id
  let r : CheckInRecord := ⟨cid, now, some now, none, CStatus.sent⟩
  let db1 := { s.db with check_ins := s.db.check_ins ++ [r], next_id := cid + 1 }
  let s1 : SysState := ⟨db1, some cid⟩
  (if transport_ok then Except.ok cid else Except.error "transport", s1)

/-- Order key for `ORDER BY sent_time DESC` with SQL `NULL` sorting last. -/
def stKey : Option Int → WithBot Int
  | none => ⊥
  | some t => (t : WithBot Int)

/-- One step of scanning for the most recent row with `status='sent'`:
    keep the running best row, replacing it when the current row is 'sent'
    and has a strictly larger sent_time key. -/
def mrs_step : Option CheckInRecord → CheckInRecord → Option CheckInRecord
  | none, r => if r.status = CStatus.sent then some r else none
  | some b, r =>
    if r.status = CStatus.sent then
      if stKey b.sent_time < stKey r.sent_time then some r else some b
    else some b

/-- `SELECT id FROM check_ins WHERE status = 'sent'
    ORDER BY sent_time DESC LIMIT 1`. -/
def most_recent_sent (l : List CheckInRecord) : Option CheckInRecord :=
  l.foldl mrs_step none

/-- `CheckInManager.get_pending_check_in`: returns the in-memory pointer if
    set, otherwise reconstructs it from the most recent 'sent' row (caching
    it back into the pointer). -/
def get_pending_check_in (s : SysState) : Option Nat × SysState :=
  match s.pending_check_in_id with
  | some i => (some i, s)
  | none =>
    match most_recent_sent s.db.check_ins with
    | some r => (some r.id, { s with pending_check_in_id := some r.id })
    | none => (none, s)

/-- `CheckInManager.clear_pending_check_in`. -/
def clear_pending_check_in (s : SysState) : SysState :=
  { s with pending_check_in_id := none }

/-- `CheckInManager.handle_sleep_button`: `UPDATE user_config SET
    is_sleeping = 1, sleep_start_time = now WHERE chat_id = ?`. -/
def handle_sleep_button (chat_id now : Int) (s : SysState) : SysState :=
  if s.db.user_config.chat_id = chat_id then
    { s with db := { s.db with user_config :=
        { s.db.user_config with is_sleeping := true,
                                sleep_start_time := some now } } }
  else s

/-- `row[1] or "08:00"`: Python `or` treats both `NULL` and the empty
    string as falsy. -/
def wake_str (o : Option String) : String :=
  match o with
  | none => "08:00"
  | some w => if w = "" then "08:00" else w

/-- `str.split(sep)` for a single-character separator, over the string's
    character list (structural recursion so that proofs can evaluate it). -/
def split_on_char (c : Char) : List Char → List (List Char)
  | [] => [[]]
  | a :: rest =>
    match split_on_char c rest with
    | [] => if a = c then [[], []] else [[a]]
    | h :: t => if a = c then [] :: h :: t else (a :: h) :: t

/-- Decimal digit value of a character. -/
def digit_val (c : Char) : Option Nat :=
  if '0' ≤ c ∧ c ≤ '9' then some (c.toNat - Char.toNat '0') else none

/-- Python `int(...)` on a plain digit string, totalised to `Option`. -/
def str_to_nat (l : List Char) : Option Nat :=
  if l = [] then none
  else l.foldl
    (fun acc c =>
      match acc, digit_val c with
      | some n, some d => some (n * 10 + d)
      | _, _ => none)
    (some 0)

/-- `map(int, default_wake_time_str.split(':'))`, totalised: the code would
    raise on a malformed string; all strings reaching it are `"HH:MM"`. -/
def parse_wake (w : String) : Int × Int :=
  match split_on_char ':' w.toList with
  | [h, m] => (((str_to_nat h).getD 0 : Int), ((str_to_nat m).getD 0 : Int))
  | _ => (0, 0)

/-- Lines 133-142 of `handle_wake_button`: the retroactive window's lower
    bound, `max(sleep_start_time, datetime.combine(today, default_wake))`. -/
def retroactive_start (dayStart : Int) (cfg : UserConfig) (sleepStart : Int) :
    Int :=
  let hm := parse_wake (wake_str cfg.default_wake_time)
  max sleepStart (dayStart + 60 * hm.1 + hm.2)

/-- The per-row effect of `UPDATE check_ins SET status='sleeping' WHERE
    scheduled_time >= lo AND scheduled_time <= hi AND status IN
    ('missed','pending')`. -/
def wake_upd (lo hi : Int) (r : CheckInRecord) : CheckInRecord :=
  if (r.status = CStatus.missed ∨ r.status = CStatus.pending) ∧
      lo ≤ r.scheduled_time ∧ r.scheduled_time ≤ hi then
    { r with status := CStatus.sleeping }
  else r

/-- The filter of `SELECT id, scheduled_time FROM check_ins WHERE
    status='sleeping' AND scheduled_time >= lo AND scheduled_time <= hi`. -/
def sleeping_in_window (lo hi : Int) (r : CheckInRecord) : Bool :=
  decide (r.status = CStatus.sleeping ∧
    lo ≤ r.scheduled_time ∧ r.scheduled_time ≤ hi)

/-- The `activity_logs` row synthesized for a slept-through check-in:
    only `timestamp, activity_summary, productivity_type, check_in_id` are
    inserted; every other column stays `NULL`. -/
def sleep_entry (r : CheckInRecord) : ActivityLogEntry :=
  ⟨r.scheduled_time, none, some "Sleeping", some "sleeping",
    none, none, none, none, some r.id⟩

/-- The synthesis loop of `handle_wake_button`: for each selected sleeping
    check-in, insert a `sleeping` activity log unless one already exists
    for that `check_in_id`. -/
def synth_sleep_logs (selected : List CheckInRecord)
    (logs : List ActivityLogEntry) : List ActivityLogEntry :=
  selected.foldl
    (fun acc r =>
      if acc.any (fun e => decide (e.check_in_id = some r.id)) then acc
      else acc ++ [sleep_entry r])
    logs

/-- `CheckInManager.handle_wake_button`.  `dayStart` is the midnight
    instant of `datetime.now().date()`.  Returns the new state and the
    hours slept (`0` when the config row is missing for this chat or no
    `sleep_start_time` is recorded). -/
def handle_wake_button (chat_id now dayStart : Int) (s : SysState) :
    SysState × ℚ :=
  let cfg := s.db.user_config
  if cfg.chat_id ≠ chat_id then (s, 0)
  else
    match cfg.sleep_start_time with
    | none => (s, 0)
    | some sleepStart =>
      let lo := retroactive_start dayStart cfg sleepStart
      let cs := s.db.check_ins.map (wake_upd lo now)
      let selected := cs.filter (sleeping_in_window lo now)
      let logs := synth_sleep_logs selected s.db.activity_logs
      let cfg2 := { cfg with is_sleeping := false, last_wake_time := some now }
      let db2 := { s.db with check_ins := cs, activity_logs := logs, user_config := cfg2 }
      ({ s with db := db2 }, (((now - sleepStart : Int) : ℚ) / 60))

/-- Bool test of `status = 'sent' AND sent_time < now - 90 minutes`; an SQL
    comparison against `NULL` is not satisfied. -/
def is_stale (now : Int) (r : CheckInRecord) : Bool :=
  decide (r.status = CStatus.sent) &&
    (match r.sent_time with
     | some t => decide (t < now - 90)
     | none => false)

/-- The per-row effect of the staleness `UPDATE`. -/
def stale_upd (now : Int) (r : CheckInRecord) : CheckInRecord :=
  if is_stale now r then { r with status := CStatus.missed } else r

/-- `CheckInManager.mark_stale_as_missed`: `UPDATE check_ins SET
    status='missed' WHERE status='sent' AND sent_time < now - 90min`. -/
def mark_stale_as_missed (now : Int) (db : DB) : DB :=
  { db with check_ins := db.check_ins.map (stale_upd now) }

/-- The structured judgment returned by `ActivityAnalyzer.analyze_activity`
    (the parsed classifier dict). -/
structure Analysis where
  activity_summary : String
  productivity_type : String
  matched_todo_id : Option Nat
  alignment_score : Int
  category : String
  reasoning : String
  feedback : String
deriving DecidableEq

/-- The fallback dict built when the classifier's reply fails to parse as
    JSON (`user_response[:100]`, neutral `beneficial` / score 5). -/
def parse_fallback (user_response : String) : Analysis :=
  ⟨user_response.take 100, "beneficial", none, 5, "Unknown",
    "Analysis pending - manual review required",
    "Activity logged. I had trouble analyzing it automatically."⟩

/-- The fallback dict returned when any step of `analyze_activity` raises
    (reasoning carries `str(e)`). -/
def error_fallback (user_response err : String) : Analysis :=
  ⟨user_response.take 100, "beneficial", none, 5, "Unknown", err,
    "Activity logged successfully."⟩

/-- `ActivityAnalyzer._save_activity_log`: INSERT of the analysis row. -/
def save_activity_log (check_in_id : Nat) (user_response : String)
    (a : Analysis) (now : Int) (db : DB) : DB :=
  let e : ActivityLogEntry :=
    ⟨now, some user_response, some a.activity_summary,
      some a.productivity_type, some a.alignment_score, a.matched_todo_id,
      some a.category, some a.reasoning, some check_in_id⟩
  { db with activity_logs := db.activity_logs ++ [e] }

/-- `ActivityAnalyzer._update_check_in_status`: `UPDATE check_ins SET
    status = ?, response_time = now WHERE id = ?`. -/
def update_check_in_status (check_in_id : Nat) (st : CStatus) (now : Int)
    (db : DB) : DB :=
  let f := fun (r : CheckInRecord) =>
    if r.id = check_in_id then { r with status := st, response_time := some now }
    else r
  { db with check_ins := db.check_ins.map f }

/-- `ActivityAnalyzer.analyze_activity`.  The external Gemini call is the
    parameter `classify` (`Except.error` models `generate_content`
    raising); `parse` models markdown stripping plus `json.loads`
    (`none` models `json.JSONDecodeError`).  When the call raises, the
    outer handler returns `error_fallback` without touching the store; when
    only parsing fails, the inner handler substitutes `parse_fallback` and
    the function still saves the log and marks the record completed. -/
def analyze_activity (classify : Except String String)
    (parse : String → Option Analysis) (user_response : String)
    (check_in_id : Nat) (now : Int) (db : DB) : Analysis × DB :=
  match classify with
  | Except.error e => (error_fallback user_response e, db)
  | Except.ok text =>
    let analysis := (parse text).getD (parse_fallback user_response)
    let db1 := save_activity_log check_in_id user_response analysis now db
    let db2 := update_check_in_status check_in_id CStatus.completed now db1
    (analysis, db2)

/-- `CheckInScheduler._get_configured_chat_id`:
    `SELECT chat_id FROM user_config WHERE check_ins_enabled = 1 LIMIT 1`. -/
def configured_chat_id (db : DB) : Option Int :=
  if db.user_config.check_ins_enabled then some db.user_config.chat_id
  else none

/-- `CheckInScheduler._is_user_sleeping`. -/
def is_user_sleeping (chat_id : Int) (db : DB) : Bool :=
  if db.user_config.chat_id = chat_id then db.user_config.is_sleeping
  else false

/-- `CheckInScheduler._is_user_busy`: the repository's reference
    implementation is a stub that always answers `false`; the busy
    predicate proper is a consumed external interface, so the scheduler
    functions below take a time-indexed oracle `busy` as a parameter. -/
def is_user_busy (_chat_id : Int) : Bool :=
  false

/-- `CheckInScheduler._retry_check_in`, with the APScheduler one-shot job
    chain unrolled: each invocation either abandons (`retry_count > 3`),
    re-schedules itself after `5 if retry_count == 1 else 10` minutes while
    busy, or dispatches.  Returns the list of (invocation time,
    retry_count) pairs of the chain together with the final state.  `fuel`
    bounds the recursion; `4` covers any chain started at retry_count 1. -/
def retry_check_in (busy : Int → Bool) (transport_ok : Bool) :
    Nat → Int → Nat → SysState → List (Int × Nat) × SysState
  | 0, _, _, s => ([], s)
  | fuel + 1, now, retry_count, s =>
    if retry_count > 3 then ([(now, retry_count)], s)
    else if busy now then
      let next_interval : Int := if retry_count = 1 then 5 else 10
      let p := retry_check_in busy transport_ok fuel (now + next_interval)
        (retry_count + 1) s
      ((now, retry_count) :: p.1, p.2)
    else ([(now, retry_count)], (send_check_in transport_ok now s).2)

/-- `CheckInScheduler._send_hourly_check_in`: skip when unconfigured or
    sleeping; while busy, schedule one retry five minutes out (returned as
    a pending job, run dates truncated to the minute); otherwise dispatch.
    A transport exception is caught and logged, so the committed record
    survives either way. -/
def send_hourly_check_in (busy : Int → Bool) (transport_ok : Bool)
    (now : Int) (s : SysState) : SysState × Option (Int × Nat) :=
  match configured_chat_id s.db with
  | none => (s, none)
  | some chat =>
    if is_user_sleeping chat s.db then (s, none)
    else if busy now then (s, some (now + 5, 1))
    else ((send_check_in transport_ok now s).2, none)

/-- One hourly tick together with the full retry chain it schedules. -/
def hourly_flow (busy : Int → Bool) (transport_ok : Bool) (now : Int)
    (s : SysState) : SysState × List (Int × Nat) :=
  match send_hourly_check_in busy transport_ok now s with
  | (s1, none) => (s1, [])
  | (s1, some job) =>
    let p := retry_check_in busy transport_ok 4 job.1 job.2 s1
    (p.2, p.1)

/-- `CheckInScheduler._cleanup_stale_check_ins` (the 30-minute maintenance
    tick): delegates to the staleness sweep. -/
def cleanup_stale_check_ins (now : Int) (s : SysState) : SysState :=
  { s with db := mark_stale_as_missed now s.db }

/-- Number of records currently awaiting a reply. -/
def countSent (l : List CheckInRecord) : Nat :=
  (l.filter (fun r => decide (r.status = CStatus.sent))).length

/-- The activity-log rows attached to a given check-in id. -/
def logs_for (logs : List ActivityLogEntry) (cid : Nat) :
    List ActivityLogEntry :=
  logs.filter (fun e => decide (e.check_in_id = some cid))

/-- Specification predicate for the staleness sweep (claim C5, amended):
    pointwise characterisation of the sweep plus idempotence. -/
def spec_stale_sweep (now : Int) (db : DB) : Prop :=
  (mark_stale_as_missed now db).check_ins.length = db.check_ins.length ∧
  (∀ i (hi : i < db.check_ins.length)
      (hj : i < (mark_stale_as_missed now db).check_ins.length),
    (((mark_stale_as_missed now db).check_ins.get ⟨i, hj⟩).status
        = CStatus.missed ↔
      (db.check_ins.get ⟨i, hi⟩).status = CStatus.missed ∨
        ((db.check_ins.get ⟨i, hi⟩).status = CStatus.sent ∧
          ∃ t, (db.check_ins.get ⟨i, hi⟩).sent_time = some t ∧ t < now - 90)) ∧
    ((db.check_ins.get ⟨i, hi⟩).status = CStatus.sent →
      ∀ t, (db.check_ins.get ⟨i, hi⟩).sent_time = some t → t < now - 90 →
        (mark_stale_as_missed now db).check_ins.get ⟨i, hj⟩
          = { db.check_ins.get ⟨i, hi⟩ with status := CStatus.missed }) ∧
    ((db.check_ins.get ⟨i, hi⟩).status = CStatus.sent →
      ∀ t, (db.check_ins.get ⟨i, hi⟩).sent_time = some t → ¬ t < now - 90 →
        (mark_stale_as_missed now db).check_ins.get ⟨i, hj⟩
          = db.check_ins.get ⟨i, hi⟩) ∧
    ((db.check_ins.get ⟨i, hi⟩).status ≠ CStatus.sent →
      (mark_stale_as_missed now db).check_ins.get ⟨i, hj⟩
        = db.check_ins.get ⟨i, hi⟩)) ∧
  (mark_stale_as_missed now).comp (mark_stale_as_missed now) db
    = mark_stale_as_missed now db ∧
  (mark_stale_as_missed now db).activity_logs = db.activity_logs

/-- Specification predicate for the wake-time status update (claim C2,
    amended): records with status `missed` or `pending` inside the window
    move to `sleeping`; every other record, including those with status
    `sent`, is left exactly as it was. -/
def spec_wake_status_update (chat_id now dayStart st : Int) (s : SysState) :
    Prop :=
  (handle_wake_button chat_id now dayStart s).1.db.check_ins.length
      = s.db.check_ins.length ∧
  ∀ i (hi : i < s.db.check_ins.length)
      (hj : i < (handle_wake_button chat_id now dayStart s).1.db.check_ins.length),
    ((((s.db.check_ins.get ⟨i, hi⟩).status = CStatus.missed ∨
        (s.db.check_ins.get ⟨i, hi⟩).status = CStatus.pending) ∧
       retroactive_start dayStart s.db.user_config st
          ≤ (s.db.check_ins.get ⟨i, hi⟩).scheduled_time ∧
       (s.db.check_ins.get ⟨i, hi⟩).scheduled_time ≤ now) →
      (handle_wake_button chat_id now dayStart s).1.db.check_ins.get ⟨i, hj⟩
        = { s.db.check_ins.get ⟨i, hi⟩ with status := CStatus.sleeping }) ∧
    (¬ (((s.db.check_ins.get ⟨i, hi⟩).status = CStatus.missed ∨
          (s.db.check_ins.get ⟨i, hi⟩).status = CStatus.pending) ∧
         retroactive_start dayStart s.db.user_config st
            ≤ (s.db.check_ins.get ⟨i, hi⟩).scheduled_time ∧
         (s.db.check_ins.get ⟨i, hi⟩).scheduled_time ≤ now) →
      (handle_wake_button chat_id now dayStart s).1.db.check_ins.get ⟨i, hj⟩
        = s.db.check_ins.get ⟨i, hi⟩)

/-- Specification predicate for wake-time log synthesis and idempotence
    (claim C6): every record that transitioned to `sleeping` during this
    wake has exactly one attached activity-log row, that row is the
    synthesized sleeping entry (`productivity_type = "sleeping"`, null raw
    response, timestamp = the record's `scheduled_time`), and running the
    handler again immediately changes nothing. -/
def spec_wake_sleep_logs (chat_id now dayStart : Int) (s : SysState) : Prop :=
  (handle_wake_button chat_id now dayStart s).1.db.check_ins.length
      = s.db.check_ins.length ∧
  (∀ i (hi : i < s.db.check_ins.length)
      (hj : i < (handle_wake_button chat_id now dayStart s).1.db.check_ins.length),
    ((s.db.check_ins.get ⟨i, hi⟩).status = CStatus.missed ∨
      (s.db.check_ins.get ⟨i, hi⟩).status = CStatus.pending) →
    ((handle_wake_button chat_id now dayStart s).1.db.check_ins.get ⟨i, hj⟩).status
        = CStatus.sleeping →
    (logs_for (handle_wake_button chat_id now dayStart s).1.db.activity_logs
        (s.db.check_ins.get ⟨i, hi⟩).id).length = 1 ∧
    ∀ e ∈ logs_for (handle_wake_button chat_id now dayStart s).1.db.activity_logs
        (s.db.check_ins.get ⟨i, hi⟩).id,
      e.productivity_type = some "sleeping" ∧ e.user_response = none ∧
        e.timestamp = (s.db.check_ins.get ⟨i, hi⟩).scheduled_time) ∧
  (handle_wake_button chat_id now dayStart
      (handle_wake_button chat_id now dayStart s).1).1
    = (handle_wake_button chat_id now dayStart s).1

/-- Specification predicate for `get_pending_check_in` (claim C9). -/
def spec_get_pending (s : SysState) : Prop :=
  ((∃ r ∈ s.db.check_ins, r.status = CStatus.sent) →
    ∃ id, (get_pending_check_in s).1 = some id ∧
      ∃ r ∈ s.db.check_ins, r.id = id ∧ r.status = CStatus.sent) ∧
  (s.pending_check_in_id = none →
    (∀ r ∈ s.db.check_ins, r.status ≠ CStatus.sent) →
    (get_pending_check_in s).1 = none) ∧
  (s.pending_check_in_id = none →
    ∀ id, (get_pending_check_in s).1 = some id →
      ∃ r ∈ s.db.check_ins, r.id = id ∧ r.status = CStatus.sent ∧
        ∀ r2 ∈ s.db.check_ins, r2.status = CStatus.sent →
          stKey r2.sent_time ≤ stKey r.sent_time)

/-- A freshly configured single-tenant state: chat 1 enabled, awake, no
    records (used for the C1 counterexample trace). -/
def sC1 : SysState :=
  ⟨⟨[], [], ⟨1, true, false, none, none, none⟩, 1⟩, none⟩

/-- Same fresh state for the C3 retry-schedule trace. -/
def sC3 : SysState :=
  ⟨⟨[], [], ⟨1, true, false, none, none, none⟩, 1⟩, none⟩

/-- State with one 'sent' record (id 1, scheduled 500) inside the wake
    window [480, 600] of chat 1 who slept at minute 300 (C2
    counterexample). -/
def sC2 : SysState :=
  ⟨⟨[⟨1, 500, some 500, none, CStatus.sent⟩], [],
    ⟨1, true, true, some 300, none, none⟩, 2⟩, some 1⟩

/-- Store with one outstanding check-in (id 1) awaiting the reply being
    analyzed (C4 counterexample). -/
def dbC4 : DB :=
  ⟨[⟨1, 600, some 600, none, CStatus.sent⟩], [],
    ⟨1, true, false, none, none, none⟩, 2⟩

/-- Store with one check-in sent at minute 0, swept at minute 90: exactly
    90 minutes elapsed (C5 counterexample). -/
def dbC5 : DB :=
  ⟨[⟨1, 0, some 0, none, CStatus.sent⟩], [],
    ⟨1, true, false, none, none, none⟩, 2⟩

/-- Witness state for C1: fresh configured state. -/
def sW1 : SysState :=
  ⟨⟨[], [], ⟨2, true, false, none, none, none⟩, 1⟩, none⟩

/-- Witness state for C2: one missed record at 500 inside the window. -/
def sW2 : SysState :=
  ⟨⟨[⟨1, 500, some 500, none, CStatus.missed⟩], [],
    ⟨1, true, true, some 300, none, none⟩, 2⟩, none⟩

/-- Witness store for C4. -/
def dbW4 : DB :=
  ⟨[⟨1, 600, some 600, none, CStatus.sent⟩], [],
    ⟨1, true, false, none, none, none⟩, 2⟩

/-- Witness store for C5: one record sent at minute 0. -/
def dbW5 : DB :=
  ⟨[⟨1, 0, some 0, none, CStatus.sent⟩], [],
    ⟨1, true, false, none, none, none⟩, 2⟩

/-- Witness state for C6: chat 1 slept at 300; one missed check-in at 500
    with no attached activity log. -/
def sW6 : SysState :=
  ⟨⟨[⟨1, 500, some 500, none, CStatus.missed⟩], [],
    ⟨1, true, true, some 300, none, none⟩, 2⟩, none⟩

/-- Witness state for C7: no sleep_start_time recorded. -/
def sW7 : SysState :=
  ⟨⟨[⟨1, 500, some 500, none, CStatus.sent⟩], [],
    ⟨1, true, false, none, none, none⟩, 2⟩, some 1⟩

/-- Witness config for C8: no default_wake_time configured. -/
def cfgW8 : UserConfig :=
  ⟨1, true, false, some 300, none, none⟩

/-- Second witness config for C8: configured "06:30" wake. -/
def cfgW8b : UserConfig :=
  ⟨1, true, false, some 300, some "06:30", none⟩

/-- Witness state for C9: empty pointer, one sent record to reconstruct. -/
def sW9 : SysState :=
  ⟨⟨[⟨1, 540, some 540, none, CStatus.sent⟩,
     ⟨2, 480, some 480, none, CStatus.completed⟩], [],
    ⟨1, true, false, none, none, none⟩, 3⟩, none⟩

theorem map_get_point {α β : Type} (f : α → β) (l : List α) (i : Nat)
    (hi : i < l.length) (hj : i < (l.map f).length) :
    (l.map f).get ⟨i, hj⟩ = f (l.get ⟨i, hi⟩) := by
  simp

theorem is_stale_iff (now : Int) (r : CheckInRecord) :
    is_stale now r = true ↔
      r.status = CStatus.sent ∧ ∃ t, r.sent_time = some t ∧ t < now - 90 := by
  unfold is_stale
  cases h : r.sent_time <;> simp [h]

theorem stale_upd_idem (now : Int) (r : CheckInRecord) :
    stale_upd now (stale_upd now r) = stale_upd now r := by
  by_cases h : is_stale now r
  · have h2 : is_stale now { r with status := CStatus.missed } = false := by
      simp [is_stale]
    simp [stale_upd, h, h2]
  · simp [stale_upd, h]

/-- C5 (corrected): the staleness sweep moves exactly the 'sent' records
    whose `sent_time` is strictly more than 90 minutes old to 'missed'
    (`sent_time < now - 90`), leaves every other record and the activity
    log untouched, and is idempotent.  The claim's "at least 90 minutes"
    boundary is refuted by `claim5_boundary_counterexample`. -/
theorem claim5_stale_sweep (now : Int) (db : DB) : spec_stale_sweep now db := by
  refine ⟨by simp [mark_stale_as_missed], ?_, ?_, by simp [mark_stale_as_missed]⟩
  · intro i hi hj
    have hg : (mark_stale_as_missed now db).check_ins.get ⟨i, hj⟩
        = stale_upd now (db.check_ins.get ⟨i, hi⟩) := by
      unfold mark_stale_as_missed
      exact map_get_point _ _ i hi hj
    refine ⟨?_, ?_, ?_, ?_⟩
    · rw [hg]; unfold stale_upd; split_ifs with h
      · constructor
        · intro _
          exact Or.inr ((is_stale_iff now _).mp h)
        · intro _
          rfl
      · constructor
        · intro hm
          exact Or.inl hm
        · rintro (hm | hse)
          · exact hm
          · exact absurd ((is_stale_iff now _).mpr hse) h
    · intro hsent t ht hlt
      rw [hg]; unfold stale_upd
      rw [if_pos ((is_stale_iff now _).mpr ⟨hsent, t, ht, hlt⟩)]
    · intro hsent t ht hnlt
      rw [hg]; unfold stale_upd
      rw [if_neg]
      intro h
      rcases ((is_stale_iff now _).mp h).2 with ⟨t2, ht2, hlt2⟩
      rw [ht] at ht2
      cases ht2
      exact hnlt hlt2
    · intro hns
      rw [hg]; unfold stale_upd
      rw [if_neg]
      intro h
      exact hns ((is_stale_iff now _).mp h).1
  · show mark_stale_as_missed now (mark_stale_as_missed now db)
      = mark_stale_as_missed now db
    have hf : stale_upd now ∘ stale_upd now = stale_upd now :=
      funext (stale_upd_idem now)
    simp [mark_stale_as_missed, List.map_map, hf]

/-- C5 counterexample: a record whose `sent_time` is exactly 90 minutes old
    (at least 90 minutes have elapsed) is NOT moved to 'missed' by the
    sweep, refuting the claim's "if and only if at least 90 minutes". -/
theorem claim5_boundary_counterexample :
    (90 : Int) - 0 ≥ 90 ∧
    (mark_stale_as_missed 90 dbC5).check_ins.map (fun r => r.status)
      = [CStatus.sent] ∧
    CStatus.sent ≠ CStatus.missed := by
  decide

theorem claim5_witness : spec_stale_sweep 90 dbW5 :=
  claim5_stale_sweep 90 dbW5

/-- C7 (confirmed): a Wake press with no recorded `sleep_start_time`
    returns 0 hours slept and leaves the whole state untouched. -/
theorem claim7_wake_without_sleep_noop (chat_id now dayStart : Int)
    (s : SysState) (h : s.db.user_config.sleep_start_time = none) :
    handle_wake_button chat_id now dayStart s = (s, 0) := by
  unfold handle_wake_button
  by_cases hc : s.db.user_config.chat_id ≠ chat_id
  · simp [hc]
  · simp [hc, h]

theorem claim7_witness :
    sW7.db.user_config.sleep_start_time = none ∧
    handle_wake_button 1 600 0 sW7 = (sW7, 0) :=
  ⟨rfl, claim7_wake_without_sleep_noop 1 600 0 sW7 rfl⟩

/-- C10 (confirmed): `send_check_in` commits the 'sent' record and sets the
    pending pointer before calling the transport, so a transport failure
    propagates as an error while the record and the pointer persist; the
    resulting state is identical to the one a successful delivery leaves. -/
theorem claim10_dispatch_not_atomic (now : Int) (s : SysState) :
    (send_check_in false now s).1 = Except.error "transport" ∧
    (send_check_in false now s).2.db.check_ins
      = s.db.check_ins ++ [⟨s.db.next_id, now, some now, none, CStatus.sent⟩] ∧
    (send_check_in false now s).2.pending_check_in_id = some s.db.next_id ∧
    (send_check_in false now s).2 = (send_check_in true now s).2 :=
  ⟨rfl, rfl, rfl, rfl⟩

/-- C1 (corrected): the hourly tick dispatches whenever a recipient is
    configured, awake and not busy — it performs no check for an existing
    outstanding 'sent' record, so the number of 'sent' records simply
    grows by one. -/
theorem claim1_hourly_tick_always_dispatches (busy : Int → Bool)
    (transport_ok : Bool) (now : Int) (s : SysState)
    (h1 : s.db.user_config.check_ins_enabled = true)
    (h2 : s.db.user_config.is_sleeping = false)
    (h3 : busy now = false) :
    (send_hourly_check_in busy transport_ok now s).1.db.check_ins
      = s.db.check_ins ++ [⟨s.db.next_id, now, some now, none, CStatus.sent⟩] ∧
    countSent ((send_hourly_check_in busy transport_ok now s).1.db.check_ins)
      = countSent s.db.check_ins + 1 ∧
    (send_hourly_check_in busy transport_ok now s).2 = none := by
  have hstate : send_hourly_check_in busy transport_ok now s
      = ((send_check_in transport_ok now s).2, none) := by
    unfold send_hourly_check_in configured_chat_id is_user_sleeping
    simp [h1, h2, h3]
  rw [hstate]
  refine ⟨rfl, ?_, rfl⟩
  simp [send_check_in, countSent, List.filter_append]

/-- C1 counterexample: two consecutive hourly ticks with no reply in
    between leave two records with status 'sent' at the same instant. -/
theorem claim1_two_sent_records :
    countSent ((send_hourly_check_in (fun _ => false) true 660
        ((send_hourly_check_in (fun _ => false) true 600 sC1).1)).1.db.check_ins)
      = 2 ∧
    1 < countSent ((send_hourly_check_in (fun _ => false) true 660
        ((send_hourly_check_in (fun _ => false) true 600 sC1).1)).1.db.check_ins) := by
  decide

theorem claim1_witness :
    sW1.db.user_config.check_ins_enabled = true ∧
    sW1.db.user_config.is_sleeping = false ∧
    countSent ((send_hourly_check_in (fun _ => false) true 600 sW1).1.db.check_ins)
      = countSent sW1.db.check_ins + 1 :=
  ⟨rfl, rfl,
    (claim1_hourly_tick_always_dispatches (fun _ => false) true 600 sW1
      rfl rfl rfl).2.1⟩

/-- C3 (code_bug): with the recipient busy at the 10:00 tick (minute 600)
    and at every re-check, the code runs the retry chain at minutes 605,
    610, 620 and abandons at 630 — not at 605, 615, 625 as the documented
    5/10/10 backoff intends (the first retry re-applies the 5-minute
    interval because `next_interval` tests `retry_count == 1` at the slot
    already delayed by 5).  No check-in record is ever created. -/
theorem claim3_retry_schedule_trace :
    (hourly_flow (fun _ => true) true 600 sC3).2
      = [(605, 1), (610, 2), (620, 3), (630, 4)] ∧
    (hourly_flow (fun _ => true) true 600 sC3).2.map Prod.fst
      ≠ [605, 615, 625] ∧
    (hourly_flow (fun _ => true) true 600 sC3).1 = sC3 := by
  decide

theorem handle_wake_eq (chat_id now dayStart st : Int) (s : SysState)
    (h1 : s.db.user_config.chat_id = chat_id)
    (h2 : s.db.user_config.sleep_start_time = some st) :
    handle_wake_button chat_id now dayStart s =
      (SysState.mk
        (DB.mk
          (s.db.check_ins.map
            (wake_upd (retroactive_start dayStart s.db.user_config st) now))
          (synth_sleep_logs
            ((s.db.check_ins.map
              (wake_upd (retroactive_start dayStart s.db.user_config st) now)).filter
              (sleeping_in_window (retroactive_start dayStart s.db.user_config st) now))
            s.db.activity_logs)
          { s.db.user_config with is_sleeping := false, last_wake_time := some now }
          s.db.next_id)
        s.pending_check_in_id,
       ((now - st : Int) : ℚ) / 60) := by
  unfold handle_wake_button
  simp [h1, h2]

theorem get_congr {A : Type} (l l2 : List A) (h : l = l2) (i : Nat)
    (hi : i < l.length) (hi2 : i < l2.length) :
    l.get ⟨i, hi⟩ = l2.get ⟨i, hi2⟩ := by
  subst h
  rfl

/-- C2 (corrected): wake reconciliation moves exactly the records with
    status 'missed' or 'pending' inside [retroactiveStart, now] to
    'sleeping'; records outside the window — and in particular records with
    status 'sent' inside it — are untouched.  The claim's inclusion of
    'sent' in the transitioned statuses is refuted by
    `claim2_sent_record_untouched`. -/
theorem claim2_wake_status_update (chat_id now dayStart st : Int)
    (s : SysState)
    (h1 : s.db.user_config.chat_id = chat_id)
    (h2 : s.db.user_config.sleep_start_time = some st) :
    spec_wake_status_update chat_id now dayStart st s := by
  have he := handle_wake_eq chat_id now dayStart st s h1 h2
  unfold spec_wake_status_update
  have hcs : (handle_wake_button chat_id now dayStart s).1.db.check_ins
      = s.db.check_ins.map
          (wake_upd (retroactive_start dayStart s.db.user_config st) now) := by
    rw [he]
  refine ⟨by rw [hcs]; simp, ?_⟩
  intro i hi hj
  have hj2 : i < (s.db.check_ins.map
      (wake_upd (retroactive_start dayStart s.db.user_config st) now)).length := by
    rw [← hcs]
    exact hj
  have h0 : (handle_wake_button chat_id now dayStart s).1.db.check_ins.get ⟨i, hj⟩
      = (s.db.check_ins.map
          (wake_upd (retroactive_start dayStart s.db.user_config st) now)).get ⟨i, hj2⟩ :=
    get_congr _ _ hcs i hj hj2
  have hg := map_get_point
    (wake_upd (retroactive_start dayStart s.db.user_config st) now)
    s.db.check_ins i hi hj2
  constructor
  · intro hcond
    rw [h0, hg]
    unfold wake_upd
    rw [if_pos hcond]
  · intro hcond
    rw [h0, hg]
    unfold wake_upd
    rw [if_neg hcond]

/-- C2 counterexample: a record with status 'sent' whose scheduled_time
    lies inside [retroactiveStart, now] keeps status 'sent' after the Wake
    handler runs, refuting the claim that 'sent' records in the window are
    set to 'sleeping'. -/
theorem claim2_sent_record_untouched :
    retroactive_start 0 sC2.db.user_config 300 ≤ 500 ∧ (500 : Int) ≤ 600 ∧
    sC2.db.check_ins.map (fun r => r.status) = [CStatus.sent] ∧
    (handle_wake_button 1 600 0 sC2).1.db.check_ins.map (fun r => r.status)
      = [CStatus.sent] ∧
    CStatus.sent ≠ CStatus.sleeping := by
  decide

theorem claim2_witness :
    sW2.db.user_config.chat_id = 1 ∧
    sW2.db.user_config.sleep_start_time = some 300 ∧
    spec_wake_status_update 1 600 0 300 sW2 :=
  ⟨rfl, rfl, claim2_wake_status_update 1 600 0 300 sW2 rfl rfl⟩

/-- C8 (confirmed): the wake reconciliation window's lower bound is
    max(sleep_start_time, today's midnight + the configured default wake
    time of day), the latter defaulting to 08:00 (minute 480) when no
    default_wake_time is configured. -/
theorem claim8_retroactive_start_formula (cfg : UserConfig)
    (dayStart st : Int) :
    (cfg.default_wake_time = none →
      retroactive_start dayStart cfg st = max st (dayStart + 480)) ∧
    (∀ w h m, cfg.default_wake_time = some w → w ≠ "" →
      parse_wake w = (h, m) →
      retroactive_start dayStart cfg st = max st (dayStart + 60 * h + m)) := by
  constructor
  · intro hn
    have hp : parse_wake (wake_str none) = (8, 0) := by decide
    simp [retroactive_start, hn, hp]
  · intro w h m hw hne hp
    simp [retroactive_start, wake_str, hw, hne, hp]

theorem claim8_witness :
    cfgW8.default_wake_time = none ∧
    retroactive_start 0 cfgW8 300 = max 300 (0 + 480) ∧
    cfgW8b.default_wake_time = some "06:30" ∧
    retroactive_start 0 cfgW8b 300 = max 300 (0 + 60 * 6 + 30) :=
  ⟨rfl, (claim8_retroactive_start_formula cfgW8 0 300).1 rfl, rfl,
    (claim8_retroactive_start_formula cfgW8b 0 300).2 "06:30" 6 30 rfl
      (by decide) (by decide)⟩

/-- C4 (corrected): when the classifier call raises, the caller receives
    the neutral fallback judgment (beneficial / 5) but the store is left
    completely untouched — the record is NOT marked completed.  Only when
    the classifier returns and its output fails to parse does the code
    substitute the fallback AND mark the record completed. -/
theorem claim4_error_fallback_no_completion (e user_response : String)
    (parse : String → Option Analysis) (check_in_id : Nat) (now : Int)
    (db : DB) :
    ((analyze_activity (Except.error e) parse user_response check_in_id now
        db).1.productivity_type = "beneficial" ∧
     (analyze_activity (Except.error e) parse user_response check_in_id now
        db).1.alignment_score = 5 ∧
     (analyze_activity (Except.error e) parse user_response check_in_id now
        db).2 = db) ∧
    (∀ text, parse text = none →
      ((analyze_activity (Except.ok text) parse user_response check_in_id now
          db).1.productivity_type = "beneficial" ∧
       (analyze_activity (Except.ok text) parse user_response check_in_id now
          db).1.alignment_score = 5) ∧
      ∀ r ∈ (analyze_activity (Except.ok text) parse user_response
          check_in_id now db).2.check_ins,
        r.id = check_in_id → r.status = CStatus.completed) := by
  constructor
  · exact ⟨rfl, rfl, rfl⟩
  · intro text ht
    refine ⟨⟨?_, ?_⟩, ?_⟩
    · simp [analyze_activity, ht, parse_fallback]
    · simp [analyze_activity, ht, parse_fallback]
    · have hcs : (analyze_activity (Except.ok text) parse user_response
          check_in_id now db).2.check_ins
          = db.check_ins.map (fun r =>
              if r.id = check_in_id then
                { r with status := CStatus.completed, response_time := some now }
              else r) := by
        simp [analyze_activity, ht, update_check_in_status, save_activity_log]
      intro r hr hid
      rw [hcs] at hr
      rcases List.mem_map.mp hr with ⟨r0, _, hfr⟩
      by_cases hc : r0.id = check_in_id
      · rw [← hfr]
        simp [hc]
      · rw [← hfr] at hid
        simp [hc] at hid

/-- C4 counterexample: classifier raises on reply "worked on report"; the
    caller gets the beneficial/5 fallback, but the store is unchanged and
    the originating record still has status 'sent', not 'completed'. -/
theorem claim4_counterexample :
    (analyze_activity (Except.error "gemini boom") (fun _ => none)
        "worked on report" 1 700 dbC4).1.productivity_type = "beneficial" ∧
    (analyze_activity (Except.error "gemini boom") (fun _ => none)
        "worked on report" 1 700 dbC4).1.alignment_score = 5 ∧
    (analyze_activity (Except.error "gemini boom") (fun _ => none)
        "worked on report" 1 700 dbC4).2 = dbC4 ∧
    (analyze_activity (Except.error "gemini boom") (fun _ => none)
        "worked on report" 1 700 dbC4).2.check_ins.map (fun r => r.status)
      = [CStatus.sent] ∧
    CStatus.sent ≠ CStatus.completed := by
  decide

theorem claim4_witness :
    ((fun (_ : String) => (none : Option Analysis)) "not json" = none) ∧
    (analyze_activity (Except.error "gemini unreachable") (fun _ => none)
        "worked on report" 1 700 dbW4).1.productivity_type = "beneficial" ∧
    (analyze_activity (Except.error "gemini unreachable") (fun _ => none)
        "worked on report" 1 700 dbW4).2 = dbW4 ∧
    (∀ r ∈ (analyze_activity (Except.ok "not json") (fun _ => none)
        "worked on report" 1 700 dbW4).2.check_ins,
      r.id = 1 → r.status = CStatus.completed) :=
  ⟨rfl,
    (claim4_error_fallback_no_completion "gemini unreachable"
      "worked on report" (fun _ => none) 1 700 dbW4).1.1,
    (claim4_error_fallback_no_completion "gemini unreachable"
      "worked on report" (fun _ => none) 1 700 dbW4).1.2.2,
    ((claim4_error_fallback_no_completion "gemini unreachable"
      "worked on report" (fun _ => none) 1 700 dbW4).2 "not json" rfl).2⟩

theorem mrs_step_eq_none (acc : Option CheckInRecord) (a : CheckInRecord)
    (h1 : mrs_step acc a = none) :
    acc = none ∧ a.status ≠ CStatus.sent := by
  cases acc with
  | none =>
    refine ⟨rfl, ?_⟩
    intro hs
    rw [show mrs_step none a = if a.status = CStatus.sent then some a else none
      from rfl, if_pos hs] at h1
    exact Option.noConfusion h1
  | some b =>
    exfalso
    rw [show mrs_step (some b) a
        = (if a.status = CStatus.sent then
            (if stKey b.sent_time < stKey a.sent_time then some a else some b)
          else some b)
      from rfl] at h1
    by_cases hs : a.status = CStatus.sent
    · rw [if_pos hs] at h1
      by_cases hlt : stKey b.sent_time < stKey a.sent_time
      · rw [if_pos hlt] at h1
        exact Option.noConfusion h1
      · rw [if_neg hlt] at h1
        exact Option.noConfusion h1
    · rw [if_neg hs] at h1
      exact Option.noConfusion h1

theorem mrs_fold_none (l : List CheckInRecord) :
    ∀ acc, l.foldl mrs_step acc = none →
      acc = none ∧ ∀ r ∈ l, r.status ≠ CStatus.sent := by
  induction l with
  | nil =>
    intro acc h
    exact ⟨h, by intro r hr; cases hr⟩
  | cons a t ih =>
    intro acc h
    rw [List.foldl_cons] at h
    obtain ⟨h1, h2⟩ := ih _ h
    obtain ⟨ha, hs⟩ := mrs_step_eq_none acc a h1
    refine ⟨ha, ?_⟩
    intro r hr
    rcases List.mem_cons.mp hr with rfl | hrt
    · exact hs
    · exact h2 r hrt

theorem mrs_step_mem (acc : Option CheckInRecord) (a r : CheckInRecord)
    (h : mrs_step acc a = some r) :
    acc = some r ∨ (r = a ∧ a.status = CStatus.sent) := by
  cases acc with
  | none =>
    rw [show mrs_step none a = if a.status = CStatus.sent then some a else none
      from rfl] at h
    by_cases hs : a.status = CStatus.sent
    · rw [if_pos hs] at h
      right
      injection h with h
      exact ⟨h.symm, hs⟩
    · rw [if_neg hs] at h
      exact Option.noConfusion h
  | some b =>
    rw [show mrs_step (some b) a
        = (if a.status = CStatus.sent then
            (if stKey b.sent_time < stKey a.sent_time then some a else some b)
          else some b)
      from rfl] at h
    by_cases hs : a.status = CStatus.sent
    · rw [if_pos hs] at h
      by_cases hlt : stKey b.sent_time < stKey a.sent_time
      · rw [if_pos hlt] at h
        right
        injection h with h
        exact ⟨h.symm, hs⟩
      · rw [if_neg hlt] at h
        left
        exact h
    · rw [if_neg hs] at h
      left
      exact h

theorem mrs_fold_mem (l : List CheckInRecord) :
    ∀ acc r, l.foldl mrs_step acc = some r →
      acc = some r ∨ (r ∈ l ∧ r.status = CStatus.sent) := by
  induction l with
  | nil =>
    intro acc r h
    left
    exact h
  | cons a t ih =>
    intro acc r h
    rw [List.foldl_cons] at h
    rcases ih _ r h with hstep | ⟨hm, hs⟩
    · rcases mrs_step_mem acc a r hstep with hacc | ⟨rfl, hs⟩
      · left
        exact hacc
      · right
        exact ⟨List.mem_cons_self _ _, hs⟩
    · right
      exact ⟨List.mem_cons_of_mem a hm, hs⟩

theorem mrs_step_some (acc : Option CheckInRecord) (a c : CheckInRecord)
    (hc : acc = some c) :
    ∃ b, mrs_step acc a = some b ∧
      stKey c.sent_time ≤ stKey b.sent_time := by
  subst hc
  rw [show mrs_step (some c) a
      = (if a.status = CStatus.sent then
          (if stKey c.sent_time < stKey a.sent_time then some a else some c)
        else some c)
    from rfl]
  by_cases hs : a.status = CStatus.sent
  · rw [if_pos hs]
    by_cases hlt : stKey c.sent_time < stKey a.sent_time
    · exact ⟨a, by rw [if_pos hlt], le_of_lt hlt⟩
    · exact ⟨c, by rw [if_neg hlt], le_refl _⟩
  · rw [if_neg hs]
    exact ⟨c, rfl, le_refl _⟩

theorem mrs_step_sent (acc : Option CheckInRecord) (a : CheckInRecord)
    (hs : a.status = CStatus.sent) :
    ∃ b, mrs_step acc a = some b ∧
      stKey a.sent_time ≤ stKey b.sent_time := by
  cases acc with
  | none =>
    refine ⟨a, ?_, le_refl _⟩
    rw [show mrs_step none a = if a.status = CStatus.sent then some a else none
      from rfl, if_pos hs]
  | some c =>
    rw [show mrs_step (some c) a
        = (if a.status = CStatus.sent then
            (if stKey c.sent_time < stKey a.sent_time then some a else some c)
          else some c)
      from rfl, if_pos hs]
    by_cases hlt : stKey c.sent_time < stKey a.sent_time
    · exact ⟨a, by rw [if_pos hlt], le_refl _⟩
    · exact ⟨c, by rw [if_neg hlt], not_lt.mp hlt⟩

theorem mrs_fold_max (l : List CheckInRecord) :
    ∀ acc r, l.foldl mrs_step acc = some r →
      (∀ c, acc = some c → stKey c.sent_time ≤ stKey r.sent_time) ∧
      (∀ x ∈ l, x.status = CStatus.sent →
        stKey x.sent_time ≤ stKey r.sent_time) := by
  induction l with
  | nil =>
    intro acc r h
    rw [List.foldl_nil] at h
    refine ⟨?_, ?_⟩
    · intro c hc
      rw [h] at hc
      injection hc with hc
      rw [hc]
    · intro x hx
      cases hx
  | cons a t ih =>
    intro acc r h
    rw [List.foldl_cons] at h
    obtain ⟨ih1, ih2⟩ := ih (mrs_step acc a) r h
    refine ⟨?_, ?_⟩
    · intro c hc
      obtain ⟨b, hb, hcb⟩ := mrs_step_some acc a c hc
      exact le_trans hcb (ih1 b hb)
    · intro x hx hxs
      rcases List.mem_cons.mp hx with rfl | hxt
      · obtain ⟨b, hb, hab⟩ := mrs_step_sent acc x hxs
        exact le_trans hab (ih1 b hb)
      · exact ih2 x hxt hxs

/-- C9 (confirmed): `get_pending_check_in` returns the id of a 'sent'
    record whenever one exists, reconstructing from storage most recent
    sent_time first when the in-memory pointer is empty, and returns none
    when the pointer is empty and no 'sent' record exists.  The hypothesis
    is the pointer validity invariant the dispatch path maintains: a
    non-empty pointer names a 'sent' record unless no 'sent' record exists
    at all. -/
theorem claim9_get_pending_guarantee (s : SysState)
    (hptr : ∀ cid, s.pending_check_in_id = some cid →
      (∃ r ∈ s.db.check_ins, r.id = cid ∧ r.status = CStatus.sent) ∨
      ∀ r ∈ s.db.check_ins, r.status ≠ CStatus.sent) :
    spec_get_pending s := by
  unfold spec_get_pending
  cases hp : s.pending_check_in_id with
  | some i =>
    have hres : (get_pending_check_in s).1 = some i := by
      unfold get_pending_check_in
      rw [hp]
    refine ⟨?_, ?_, ?_⟩
    · rintro ⟨r, hr, hrs⟩
      rcases hptr i hp with hgood | hnone
      · exact ⟨i, hres, hgood⟩
      · exact absurd hrs (hnone r hr)
    · intro h0
      exact absurd h0 (Option.some_ne_none i)
    · intro h0
      exact absurd h0 (Option.some_ne_none i)
  | none =>
    cases hm : most_recent_sent s.db.check_ins with
    | none =>
      have hres : (get_pending_check_in s).1 = none := by
        unfold get_pending_check_in
        rw [hp, hm]
      have hno := mrs_fold_none s.db.check_ins none hm
      refine ⟨?_, ?_, ?_⟩
      · rintro ⟨r, hr, hrs⟩
        exact absurd hrs (hno.2 r hr)
      · intro _ _
        exact hres
      · intro _ cid hcid
        rw [hres] at hcid
        exact absurd hcid.symm (Option.some_ne_none cid)
    | some r =>
      have hres : (get_pending_check_in s).1 = some r.id := by
        unfold get_pending_check_in
        rw [hp, hm]
      have hmem := mrs_fold_mem s.db.check_ins none r hm
      have hmem2 : r ∈ s.db.check_ins ∧ r.status = CStatus.sent := by
        rcases hmem with hacc | h
        · exact absurd hacc.symm (Option.some_ne_none r)
        · exact h
      have hmax := mrs_fold_max s.db.check_ins none r hm
      refine ⟨?_, ?_, ?_⟩
      · intro _
        exact ⟨r.id, hres, r, hmem2.1, rfl, hmem2.2⟩
      · intro _ hall
        exact absurd hmem2.2 (hall r hmem2.1)
      · intro _ cid hcid
        rw [hres] at hcid
        have hid : cid = r.id := by
          injection hcid.symm
        subst hid
        exact ⟨r, hmem2.1, rfl, hmem2.2,
          fun r2 hr2 hr2s => hmax.2 r2 hr2 hr2s⟩

theorem claim9_witness :
    (∀ cid, sW9.pending_check_in_id = some cid →
      (∃ r ∈ sW9.db.check_ins, r.id = cid ∧ r.status = CStatus.sent) ∨
      ∀ r ∈ sW9.db.check_ins, r.status ≠ CStatus.sent) ∧
    spec_get_pending sW9 :=
  ⟨fun cid h => Option.noConfusion h,
    claim9_get_pending_guarantee sW9 (fun cid h => Option.noConfusion h)⟩

theorem synth_cons (a : CheckInRecord) (t : List CheckInRecord)
    (logs : List ActivityLogEntry) :
    synth_sleep_logs (a :: t) logs
      = synth_sleep_logs t
          (if logs.any (fun e => decide (e.check_in_id = some a.id)) then logs
           else logs ++ [sleep_entry a]) :=
  rfl

theorem logs_for_append (l1 l2 : List ActivityLogEntry) (cid : Nat) :
    logs_for (l1 ++ l2) cid = logs_for l1 cid ++ logs_for l2 cid := by
  simp [logs_for]

theorem any_iff_logs_for (logs : List ActivityLogEntry) (cid : Nat) :
    logs.any (fun e => decide (e.check_in_id = some cid)) = true ↔
      logs_for logs cid ≠ [] := by
  constructor
  · intro h hnil
    rcases List.any_eq_true.mp h with ⟨e, he, hp⟩
    have hmem : e ∈ logs_for logs cid := List.mem_filter.mpr ⟨he, hp⟩
    rw [hnil] at hmem
    cases hmem
  · intro h
    obtain ⟨e, he⟩ := List.exists_mem_of_ne_nil _ h
    obtain ⟨hel, hp⟩ := List.mem_filter.mp he
    exact List.any_eq_true.mpr ⟨e, hel, hp⟩

theorem synth_mem_mono (sel : List CheckInRecord) :
    ∀ logs e, e ∈ logs → e ∈ synth_sleep_logs sel logs := by
  induction sel with
  | nil =>
    intro logs e he
    exact he
  | cons a t ih =>
    intro logs e he
    rw [synth_cons]
    by_cases h : logs.any (fun e => decide (e.check_in_id = some a.id))
    · rw [if_pos h]
      exact ih logs e he
    · rw [if_neg h]
      exact ih _ e (List.mem_append_left _ he)

theorem synth_logs_for_not_mem (sel : List CheckInRecord) :
    ∀ logs cid, cid ∉ sel.map (fun x => x.id) →
      logs_for (synth_sleep_logs sel logs) cid = logs_for logs cid := by
  induction sel with
  | nil =>
    intro logs cid _
    rfl
  | cons a t ih =>
    intro logs cid hcid
    have hne : cid ≠ a.id := by
      intro h
      exact hcid (by simp [h])
    have hcid2 : cid ∉ t.map (fun x => x.id) := by
      intro h
      exact hcid (by simp [h])
    rw [synth_cons]
    by_cases h : logs.any (fun e => decide (e.check_in_id = some a.id))
    · rw [if_pos h]
      exact ih logs cid hcid2
    · rw [if_neg h]
      rw [ih _ cid hcid2, logs_for_append]
      have hsingle : logs_for [sleep_entry a] cid = [] := by
        simp [logs_for, sleep_entry]
        intro h
        exact absurd h.symm hne
      rw [hsingle, List.append_nil]

theorem synth_logs_for_mem (sel : List CheckInRecord) :
    ∀ logs r, r ∈ sel → (sel.map (fun x => x.id)).Nodup →
      logs_for logs r.id = [] →
      logs_for (synth_sleep_logs sel logs) r.id = [sleep_entry r] := by
  induction sel with
  | nil =>
    intro logs r hr
    cases hr
  | cons a t ih =>
    intro logs r hr hnd hclean
    rw [List.map_cons] at hnd
    have hnds := List.nodup_cons.mp hnd
    rw [synth_cons]
    rcases List.mem_cons.mp hr with rfl | hrt
    · have hany : ¬ logs.any (fun e => decide (e.check_in_id = some r.id)) = true := by
        rw [any_iff_logs_for]
        simp [hclean]
      rw [if_neg hany]
      rw [synth_logs_for_not_mem t _ r.id hnds.1]
      rw [logs_for_append, hclean]
      simp [logs_for, sleep_entry]
    · have hne : r.id ≠ a.id := by
        intro h
        apply hnds.1
        rw [← h]
        exact List.mem_map.mpr ⟨r, hrt, rfl⟩
      by_cases h : logs.any (fun e => decide (e.check_in_id = some a.id))
      · rw [if_pos h]
        exact ih logs r hrt hnds.2 hclean
      · rw [if_neg h]
        apply ih _ r hrt hnds.2
        rw [logs_for_append, hclean]
        have hsingle : logs_for [sleep_entry a] r.id = [] := by
          simp [logs_for, sleep_entry]
          intro hx
          exact absurd hx (Ne.symm hne)
        rw [hsingle]
        rfl

theorem synth_exists_log (sel : List CheckInRecord) :
    ∀ logs r, r ∈ sel →
      ∃ e ∈ synth_sleep_logs sel logs, e.check_in_id = some r.id := by
  induction sel with
  | nil =>
    intro logs r hr
    cases hr
  | cons a t ih =>
    intro logs r hr
    rw [synth_cons]
    rcases List.mem_cons.mp hr with rfl | hrt
    · by_cases h : logs.any (fun e => decide (e.check_in_id = some r.id))
      · rw [if_pos h]
        rcases List.any_eq_true.mp h with ⟨e, he, hp⟩
        exact ⟨e, synth_mem_mono t logs e he, by simpa using hp⟩
      · rw [if_neg h]
        refine ⟨sleep_entry r, ?_, rfl⟩
        exact synth_mem_mono t _ _ (List.mem_append_right _ (by simp))
    · by_cases h : logs.any (fun e => decide (e.check_in_id = some a.id))
      · rw [if_pos h]
        exact ih logs r hrt
      · rw [if_neg h]
        exact ih _ r hrt

theorem synth_noop (sel : List CheckInRecord) :
    ∀ logs, (∀ r ∈ sel, ∃ e ∈ logs, e.check_in_id = some r.id) →
      synth_sleep_logs sel logs = logs := by
  induction sel with
  | nil =>
    intro logs _
    rfl
  | cons a t ih =>
    intro logs hall
    rw [synth_cons]
    have h : logs.any (fun e => decide (e.check_in_id = some a.id)) = true := by
      rcases hall a (by simp) with ⟨e, he, hp⟩
      exact List.any_eq_true.mpr ⟨e, he, by simpa using hp⟩
    rw [if_pos h]
    exact ih logs (fun r hr => hall r (by simp [hr]))

theorem wake_upd_idem (lo hi : Int) (r : CheckInRecord) :
    wake_upd lo hi (wake_upd lo hi r) = wake_upd lo hi r := by
  by_cases h : (r.status = CStatus.missed ∨ r.status = CStatus.pending) ∧
      lo ≤ r.scheduled_time ∧ r.scheduled_time ≤ hi
  · have h2 : ¬ ((({ r with status := CStatus.sleeping } : CheckInRecord).status
          = CStatus.missed ∨
        ({ r with status := CStatus.sleeping } : CheckInRecord).status
          = CStatus.pending) ∧
        lo ≤ ({ r with status := CStatus.sleeping } : CheckInRecord).scheduled_time ∧
        ({ r with status := CStatus.sleeping } : CheckInRecord).scheduled_time ≤ hi) := by
      intro hc
      rcases hc.1 with hx | hx <;> simp at hx
    simp [wake_upd, h, h2]
  · simp [wake_upd, h]

theorem handle_wake_noop (chat_id now dayStart : Int) (s : SysState)
    (h : s.db.user_config.sleep_start_time = none) :
    handle_wake_button chat_id now dayStart s = (s, 0) := by
  unfold handle_wake_button
  by_cases hc : s.db.user_config.chat_id ≠ chat_id
  · simp [hc]
  · simp [hc, h]

theorem handle_wake_wrong_chat (chat_id now dayStart : Int) (s : SysState)
    (h : s.db.user_config.chat_id ≠ chat_id) :
    handle_wake_button chat_id now dayStart s = (s, 0) := by
  unfold handle_wake_button
  simp [h]

theorem handle_wake_idem (chat_id now dayStart : Int) (s : SysState) :
    (handle_wake_button chat_id now dayStart
      (handle_wake_button chat_id now dayStart s).1).1
    = (handle_wake_button chat_id now dayStart s).1 := by
  by_cases hc : s.db.user_config.chat_id = chat_id
  · cases hss : s.db.user_config.sleep_start_time with
    | none =>
      have hn := handle_wake_noop chat_id now dayStart s hss
      rw [hn]
      show (handle_wake_button chat_id now dayStart s).1 = s
      rw [hn]
    | some st =>
      have he := handle_wake_eq chat_id now dayStart st s hc hss
      have h1b : (handle_wake_button chat_id now dayStart
          s).1.db.user_config.chat_id = chat_id := by
        rw [he]
        exact hc
      have h2b : (handle_wake_button chat_id now dayStart
          s).1.db.user_config.sleep_start_time = some st := by
        rw [he]
        exact hss
      have he2 := handle_wake_eq chat_id now dayStart st
        (handle_wake_button chat_id now dayStart s).1 h1b h2b
      rw [he2]
      have hA : (handle_wake_button chat_id now dayStart s).1.db.check_ins
          = s.db.check_ins.map
              (wake_upd (retroactive_start dayStart s.db.user_config st) now) := by
        rw [he]
      have hB : (handle_wake_button chat_id now dayStart s).1.db.activity_logs
          = synth_sleep_logs
              ((s.db.check_ins.map
                (wake_upd (retroactive_start dayStart s.db.user_config st) now)).filter
                (sleeping_in_window (retroactive_start dayStart s.db.user_config st) now))
              s.db.activity_logs := by
        rw [he]
      have hC : (handle_wake_button chat_id now dayStart s).1.db.user_config
          = { s.db.user_config with is_sleeping := false, last_wake_time := some now } := by
        rw [he]
      have hD : (handle_wake_button chat_id now dayStart s).1.db.next_id
          = s.db.next_id := by
        rw [he]
      have hE : (handle_wake_button chat_id now dayStart s).1.pending_check_in_id
          = s.pending_check_in_id := by
        rw [he]
      rw [hA, hB, hC, hD, hE]
      have hlo : retroactive_start dayStart
          { s.db.user_config with is_sleeping := false, last_wake_time := some now } st
          = retroactive_start dayStart s.db.user_config st := rfl
      rw [hlo]
      have hmm2 : (s.db.check_ins.map
            (wake_upd (retroactive_start dayStart s.db.user_config st) now)).map
            (wake_upd (retroactive_start dayStart s.db.user_config st) now)
          = s.db.check_ins.map
              (wake_upd (retroactive_start dayStart s.db.user_config st) now) := by
        rw [List.map_map]
        have hfun : wake_upd (retroactive_start dayStart s.db.user_config st) now
              ∘ wake_upd (retroactive_start dayStart s.db.user_config st) now
            = wake_upd (retroactive_start dayStart s.db.user_config st) now :=
          funext (wake_upd_idem _ now)
        rw [hfun]
      rw [hmm2]
      have hno : synth_sleep_logs
            ((s.db.check_ins.map
              (wake_upd (retroactive_start dayStart s.db.user_config st) now)).filter
              (sleeping_in_window (retroactive_start dayStart s.db.user_config st) now))
            (synth_sleep_logs
              ((s.db.check_ins.map
                (wake_upd (retroactive_start dayStart s.db.user_config st) now)).filter
                (sleeping_in_window (retroactive_start dayStart s.db.user_config st) now))
              s.db.activity_logs)
          = synth_sleep_logs
              ((s.db.check_ins.map
                (wake_upd (retroactive_start dayStart s.db.user_config st) now)).filter
                (sleeping_in_window (retroactive_start dayStart s.db.user_config st) now))
              s.db.activity_logs :=
        synth_noop _ _ (fun r hr => synth_exists_log _ s.db.activity_logs r hr)
      rw [hno]
      conv_rhs => rw [he]
  · have hn := handle_wake_wrong_chat chat_id now dayStart s hc
    rw [hn]
    show (handle_wake_button chat_id now dayStart s).1 = s
    rw [hn]

/-- C6 (confirmed): after a Wake press, every record that transitioned to
    'sleeping' carries exactly one activity-log row — the synthesized
    sleeping entry with null raw response and the record's scheduled_time
    as timestamp — and an immediately repeated Wake press changes nothing.
    Hypotheses: valid config row, recorded sleep start, primary-key
    distinctness of record ids, and no pre-existing log rows for
    missed/pending records (no activity is ever logged for a prompt that
    was never answered). -/
theorem claim6_sleep_log_round_trip (chat_id now dayStart st : Int)
    (s : SysState)
    (h1 : s.db.user_config.chat_id = chat_id)
    (h2 : s.db.user_config.sleep_start_time = some st)
    (h3 : (s.db.check_ins.map (fun r => r.id)).Nodup)
    (h4 : ∀ r ∈ s.db.check_ins,
      (r.status = CStatus.missed ∨ r.status = CStatus.pending) →
      logs_for s.db.activity_logs r.id = []) :
    spec_wake_sleep_logs chat_id now dayStart s := by
  have he := handle_wake_eq chat_id now dayStart st s h1 h2
  unfold spec_wake_sleep_logs
  set lo := retroactive_start dayStart s.db.user_config st with hlodef
  have hcs : (handle_wake_button chat_id now dayStart s).1.db.check_ins
      = s.db.check_ins.map (wake_upd lo now) := by
    rw [he]
  have hal : (handle_wake_button chat_id now dayStart s).1.db.activity_logs
      = synth_sleep_logs
          ((s.db.check_ins.map (wake_upd lo now)).filter
            (sleeping_in_window lo now))
          s.db.activity_logs := by
    rw [he]
  refine ⟨by rw [hcs]; simp, ?_, handle_wake_idem chat_id now dayStart s⟩
  intro i hi hj hmp hslp
  have hj2 : i < (s.db.check_ins.map (wake_upd lo now)).length := by
    rw [← hcs]
    exact hj
  have h0 : (handle_wake_button chat_id now dayStart s).1.db.check_ins.get ⟨i, hj⟩
      = (s.db.check_ins.map (wake_upd lo now)).get ⟨i, hj2⟩ :=
    get_congr _ _ hcs i hj hj2
  have hg := map_get_point (wake_upd lo now) s.db.check_ins i hi hj2
  rw [h0, hg] at hslp
  have hcond : (((s.db.check_ins.get ⟨i, hi⟩).status = CStatus.missed ∨
      (s.db.check_ins.get ⟨i, hi⟩).status = CStatus.pending) ∧
      lo ≤ (s.db.check_ins.get ⟨i, hi⟩).scheduled_time ∧
      (s.db.check_ins.get ⟨i, hi⟩).scheduled_time ≤ now) := by
    by_contra hcnot
    unfold wake_upd at hslp
    rw [if_neg hcnot] at hslp
    rcases hmp with hx | hx <;> rw [hx] at hslp <;> exact CStatus.noConfusion hslp
  have hupd : wake_upd lo now (s.db.check_ins.get ⟨i, hi⟩)
      = { s.db.check_ins.get ⟨i, hi⟩ with status := CStatus.sleeping } := by
    unfold wake_upd
    rw [if_pos hcond]
  have hmem : wake_upd lo now (s.db.check_ins.get ⟨i, hi⟩)
      ∈ (s.db.check_ins.map (wake_upd lo now)).filter
          (sleeping_in_window lo now) := by
    apply List.mem_filter.mpr
    constructor
    · exact List.mem_map.mpr ⟨_, List.get_mem _ _ _, rfl⟩
    · rw [hupd]
      unfold sleeping_in_window
      exact decide_eq_true ⟨rfl, hcond.2⟩
  have hid_map : (s.db.check_ins.map (wake_upd lo now)).map (fun x => x.id)
      = s.db.check_ins.map (fun r => r.id) := by
    rw [List.map_map]
    have hfun : (fun (x : CheckInRecord) => x.id) ∘ wake_upd lo now
        = fun (r : CheckInRecord) => r.id := by
      funext r
      unfold Function.comp wake_upd
      split_ifs <;> rfl
    rw [hfun]
  have hnd1 : (((s.db.check_ins.map (wake_upd lo now)).filter
      (sleeping_in_window lo now)).map (fun x => x.id)).Nodup := by
    have hsub := List.Sublist.map (fun (x : CheckInRecord) => x.id)
      (List.filter_sublist (s.db.check_ins.map (wake_upd lo now))
        (p := sleeping_in_window lo now))
    rw [hid_map] at hsub
    exact List.Nodup.sublist hsub h3
  have hidr : (wake_upd lo now (s.db.check_ins.get ⟨i, hi⟩)).id
      = (s.db.check_ins.get ⟨i, hi⟩).id := by
    unfold wake_upd
    split_ifs <;> rfl
  have hclean : logs_for s.db.activity_logs
      (wake_upd lo now (s.db.check_ins.get ⟨i, hi⟩)).id = [] := by
    rw [hidr]
    exact h4 _ (List.get_mem _ _ _) hmp
  have hlogs := synth_logs_for_mem
    ((s.db.check_ins.map (wake_upd lo now)).filter (sleeping_in_window lo now))
    s.db.activity_logs _ hmem hnd1 hclean
  rw [hupd] at hlogs
  dsimp only at hlogs
  refine ⟨?_, ?_⟩
  · rw [hal, hlogs]
    rfl
  · intro e he
    rw [hal, hlogs] at he
    have heq := List.mem_singleton.mp he
    rw [heq]
    exact ⟨rfl, rfl, rfl⟩

theorem claim6_witness :
    sW6.db.user_config.chat_id = 1 ∧
    sW6.db.user_config.sleep_start_time = some 300 ∧
    (sW6.db.check_ins.map (fun r => r.id)).Nodup ∧
    (∀ r ∈ sW6.db.check_ins,
      (r.status = CStatus.missed ∨ r.status = CStatus.pending) →
      logs_for sW6.db.activity_logs r.id = []) ∧
    spec_wake_sleep_logs 1 600 0 sW6 :=
  ⟨rfl, rfl, by decide, by decide,
    claim6_sleep_log_round_trip 1 600 0 300 sW6 rfl rfl (by decide) (by decide)⟩
